import Mathlib

/-!
# Verification of the `plit` subplot pager (`src/plit/subplots.py`)

A shallow embedding of the grid-allocation / pagination / image-decomposition
pipeline of `plit.subplots`, together with theorems settling the frozen claims
about it.

The embedding covers two layers:

* the pager state machine (`SimpleMatrixPlotter`, `MontagePager`): subplot
  index bookkeeping, overflow-triggered page rotation, flush;
* the decomposer geometry (`trueNrows`, `subplot_size`, `fixed_bbox`, `pad`,
  `tighten`, `savePieces`): pixel-grid-to-bounding-box inversion and
  tight-cropping via background difference.

Fallible Python operations (`ZeroDivisionError`, `IndexError`,
`AttributeError` on a destroyed figure, `TypeError` from unpacking `None`)
are modelled by failure values: `Option.none` in the decomposer layer, and
`Except.error s` in the pager layer, where `s` is the pager state at the
moment the exception propagates (Python mutations made before the raise are
kept, e.g. a montage file persisted before the decomposition dies).  Machine
integers are `Nat`/`Int` (Python integers are unbounded, so no wrap-around
is modelled).  Rasterization itself (matplotlib rendering) is external to
the repository, so each flush takes the rasterized page bitmap and the
figure's face color as parameters and runs the decomposer on them.
-/

/-- Floor integer square root, modelling Python's `int(math.sqrt(n))`
(truncation of the real square root; exact for the magnitudes at hand).
Written as a fold so that it evaluates by kernel reduction. -/
def isqrt (n : Nat) : Nat :=
  (List.range (n + 1)).foldl (fun acc k => if k * k ≤ n then k else acc) 0

/-- Default column count of `SimpleMatrixPlotter.__init__`:
`ncols = min(max(5, int(math.sqrt(figcount))), 20)` (line 73). -/
def resolveNcols (figcount : Nat) : Nat :=
  min (max 5 (isqrt figcount)) 20

/-- State of a `SimpleMatrixPlotter` instance.

`nrows`/`ncols` are the grid shape chosen at construction (also what the
`nrows`/`ncols` properties report while axes exist), `axesLen` is
`len(self.axes)`, `i` is `self._i` (index of the first free subplot) and
`figAlive` records whether `self.fig` is still a live figure (it becomes
`None` after `savefig`). -/
structure SimpleMatrixPlotter where
  nrows : Nat
  ncols : Nat
  axesLen : Nat
  i : Nat
  figAlive : Bool
deriving DecidableEq, Repr

/-- `SimpleMatrixPlotter.__init__(figcount, ncols)` after the default for
`ncols` has been resolved (see `resolveNcols`):
`nrows = figcount // ncols + (figcount % ncols > 0)` (line 74), the figure
holds `nrows*ncols` axes, `_i = 0`.  Callers must pass `ncols > 0`
(Python would raise `ZeroDivisionError` on `ncols = 0`; every construction
in the repository satisfies this since the default is at least 5). -/
def smpMk (figcount ncols : Nat) : SimpleMatrixPlotter :=
  let nrows := figcount / ncols + (if figcount % ncols > 0 then 1 else 0)
  { nrows := nrows, ncols := ncols, axesLen := nrows * ncols, i := 0,
    figAlive := true }

namespace SimpleMatrixPlotter

/-- `SimpleMatrixPlotter.pop` (lines 149-161): returns `self.axes[self._i]`
(raising `IndexError` when `_i` is out of range, modelled by `none`) and
increments `_i`. -/
def pop (s : SimpleMatrixPlotter) : Option SimpleMatrixPlotter :=
  if s.i < s.axesLen then some { s with i := s.i + 1 } else none

/-- `SimpleMatrixPlotter.trim` (lines 163-167): drops the unused trailing
axes, `self.axes = self.axes[:self._i]`. -/
def trim (s : SimpleMatrixPlotter) : SimpleMatrixPlotter :=
  { s with axesLen := min s.axesLen s.i }

/-- `SimpleMatrixPlotter.savefig` (lines 169-181): trims, saves the figure
and destroys it (`self.fig = None`).  If the figure was already destroyed by
a previous call, `self.fig.savefig` raises `AttributeError` (`none`). -/
def savefig (s : SimpleMatrixPlotter) : Option SimpleMatrixPlotter :=
  if s.figAlive then some { s.trim with figAlive := false } else none

/-- The `ncols` property (lines 105-116): `0` when no axes remain, otherwise
the gridspec's column count. -/
def ncolsProp (s : SimpleMatrixPlotter) : Nat :=
  if s.axesLen < 1 then 0 else s.ncols

/-- The `nrows` property (lines 118-129): `0` when no axes remain, otherwise
the gridspec's row count. -/
def nrowsProp (s : SimpleMatrixPlotter) : Nat :=
  if s.axesLen < 1 then 0 else s.nrows

end SimpleMatrixPlotter

/-! ## Decomposer geometry (`MontagePager._save_pieces`, lines 341-409) -/

/-- Python floor division `a // b`, which raises `ZeroDivisionError` when
`b = 0` (modelled by `none`). -/
def pydiv (a b : Nat) : Option Nat :=
  if b = 0 then none else some (a / b)

/-- The occupied row count computed by `subplot_size` (lines 351-353):
`true_nrows = subplot_cnt // smp.nrows + (subplot_cnt % smp.ncols != 0)`.
Note that the division is by `nrows` while the remainder test is
by `ncols`, exactly as in the source. -/
def trueNrows (nrows ncols subplotCnt : Nat) : Nat :=
  subplotCnt / nrows + (if subplotCnt % ncols ≠ 0 then 1 else 0)

/-- The occupied column count computed by `subplot_size` (line 354):
`true_ncols = min(smp.ncols, subplot_cnt)`. -/
def trueNcols (ncols subplotCnt : Nat) : Nat :=
  min ncols subplotCnt

/-- `subplot_size` (lines 350-363): per-cell pixel size
`h = im.height // true_nrows`, `w = im.width // true_ncols`; raises
`ZeroDivisionError` (`none`) when either divisor is zero. -/
def subplot_size (imHeight imWidth nrows ncols subplotCnt : Nat) :
    Option (Nat × Nat) := do
  let h ← pydiv imHeight (trueNrows nrows ncols subplotCnt)
  let w ← pydiv imWidth (trueNcols ncols subplotCnt)
  pure (h, w)

/-- `fixed_bbox(i)` (lines 367-380): `row, col = i // smp.nrows, i % smp.ncols`;
box `(left, up, right, bottom) = (col*w, row*h, col*w + w, row*h + h)`.
The row is divided by `nrows`, exactly as in the source. -/
def fixed_bbox (subplot_h subplot_w nrows ncols i : Nat) :
    Nat × Nat × Nat × Nat :=
  let row := i / nrows
  let col := i % ncols
  (col * subplot_w, row * subplot_h,
   col * subplot_w + subplot_w, row * subplot_h + subplot_h)

/-- `pad` (lines 394-401), with `pixels = 4`:
`(min(left-4, 0), min(up-4, 0), min(right+4, im.width), min(bottom+4, im.height))`.
`im` in the closure is `_save_pieces`'s argument — the full page bitmap —
so the right/bottom clamp uses the page dimensions, not the crop's. -/
def pad (left up right bottom imWidth imHeight : Int) :
    Int × Int × Int × Int :=
  (min (left - 4) 0, min (up - 4) 0,
   min (right + 4) imWidth, min (bottom + 4) imHeight)

/-- An RGB pixel value (one `Nat` per channel). -/
abbrev RGB := Nat × Nat × Nat

/-- A PIL image in mode RGB: dimensions plus a pixel map. -/
structure PILImage where
  width : Nat
  height : Nat
  px : Nat → Nat → RGB

/-- `Image.new("RGB", (w, h), color)`: a solid-color image. -/
def imageNew (w h : Nat) (color : RGB) : PILImage :=
  { width := w, height := h, px := fun _ _ => color }

/-- Absolute difference of two channel values. -/
def absDiff (a b : Nat) : Nat := max a b - min a b

/-- `ImageChops.difference`: channel-wise absolute difference. -/
def difference (im1 im2 : PILImage) : PILImage :=
  { width := im1.width, height := im1.height,
    px := fun x y =>
      (absDiff (im1.px x y).1 (im2.px x y).1,
       absDiff (im1.px x y).2.1 (im2.px x y).2.1,
       absDiff (im1.px x y).2.2 (im2.px x y).2.2) }

/-- `Image.getbbox`: the minimal box `(left, upper, right, lower)` (right and
lower exclusive) containing all non-zero pixels, or `None` when every pixel
is zero. -/
def getbbox (im : PILImage) : Option (Nat × Nat × Nat × Nat) :=
  let pts := (List.range im.height).flatMap (fun y =>
    (List.range im.width).filterMap (fun x =>
      if im.px x y ≠ (0, 0, 0) then some (x, y) else none))
  match pts with
  | [] => none
  | p :: ps =>
      some (ps.foldl
        (fun acc q =>
          (min acc.1 q.1, min acc.2.1 q.2, max acc.2.2.1 (q.1 + 1),
           max acc.2.2.2 (q.2 + 1)))
        (p.1, p.2, p.1 + 1, p.2 + 1))

/-- `Image.crop` with an in-range `Nat` box: pixels outside the source are
black `(0,0,0)` (PIL zero-fills when a crop box overhangs the image). -/
def cropImage (im : PILImage) (box : Nat × Nat × Nat × Nat) : PILImage :=
  { width := box.2.2.1 - box.1, height := box.2.2.2 - box.2.1,
    px := fun x y =>
      if x + box.1 < im.width ∧ y + box.2.1 < im.height then
        im.px (x + box.1) (y + box.2.1)
      else (0, 0, 0) }

/-- `tighten` (lines 382-392) on the default (non-transparent) path, reduced
to the box it passes to `im.crop`: build a solid background reference,
diff, take `getbbox`; when the bbox is `None` the call `pad(*bbox)` raises
`TypeError` (modelled by `none`), otherwise the crop uses the padded box.
`pageW`/`pageH` are the closure dimensions used by `pad`. -/
def tighten (pageW pageH : Nat) (im : PILImage) (bgRgb : RGB) :
    Option (Int × Int × Int × Int) :=
  (getbbox (difference im (imageNew im.width im.height bgRgb))).map
    (fun b => pad (Int.ofNat b.1) (Int.ofNat b.2.1) (Int.ofNat b.2.2.1)
      (Int.ofNat b.2.2.2) (Int.ofNat pageW) (Int.ofNat pageH))

/-- `_save_pieces` (lines 341-409), reduced to the tightened boxes of the
crops it persists, in slot order: compute the cell size (raising when a
divisor is zero), then for each slot crop the fixed box and tighten it
(raising when the cell is blank).  `none` models the whole flush dying with
the propagated exception, with no crop of this page persisted. -/
def savePieces (im : PILImage) (subplotCnt nrows ncols : Nat) (bgRgb : RGB) :
    Option (List (Int × Int × Int × Int)) := do
  let hw ← subplot_size im.height im.width nrows ncols subplotCnt
  (List.range subplotCnt).mapM (fun i =>
    tighten im.width im.height
      (cropImage im (fixed_bbox hw.1 hw.2 nrows ncols i)) bgRgb)

/-! ## The montage pager (`MontagePager`, lines 202-339) -/

/-- One manifest (`mappings.csv`) data row, `(title, subplot index, row,
col)`; the two derived filename columns are string formatting of the montage
index and subplot index and are not modelled separately. -/
abbrev ManifestRow := String × Nat × Nat × Nat

/-- `MontagePager._save_csv` (lines 322-339): one row per identifier of the
flushed page, with `row, col = divmod(i, ncols)` where `ncols` is the
`SimpleMatrixPlotter.ncols` property read after the figure was saved. -/
def csvRows (ncols : Nat) (itemid : List String) : List ManifestRow :=
  itemid.enum.map (fun p => (p.2, p.1, p.1 / ncols, p.1 % ncols))

/-- State of a `MontagePager` (lines 202-339).

`pageSize` is `page_size`, `smp` the current `SimpleMatrixPlotter`, `i` the
running montage index `_i`, `itemid` the current page's identifier list
`_itemid`, `savedPages` the occupied-slot counts of the montage files
persisted so far (in order), and `manifestRows` the data rows written to
`mappings.csv` so far. -/
structure MontagePager where
  pageSize : Nat
  smp : SimpleMatrixPlotter
  i : Nat
  itemid : List String
  savedPages : List Nat
  manifestRows : List ManifestRow
deriving DecidableEq, Repr

/-- `MontagePager.__init__` with default keyword arguments (lines 205-266):
`smp_kwargs = {figcount: page_size}`, so the montage grid uses the default
column count; `_i = 0`, empty identifier list, manifest holds only the
header. -/
def pagerInit (pageSize : Nat) : MontagePager :=
  { pageSize := pageSize, smp := smpMk pageSize (resolveNcols pageSize),
    i := 0, itemid := [], savedPages := [], manifestRows := [] }

namespace MontagePager

/-- The tail of `MontagePager.savefig` after the montage file has been
persisted (lines 318-319): run `_save_pieces` — `savePieces` on the page
bitmap `im` with the `nrows`/`ncols` properties of the trimmed plotter
`smp'` — and, when it raises (`ZeroDivisionError` in `subplot_size` or
`TypeError` on a blank crop), propagate the exception with the montage
already recorded but the identifier list not yet cleared and no manifest
rows written; on success run `_save_csv`, appending the manifest rows and
clearing the identifier list. -/
def savefigDecompose (im : PILImage) (bgRgb : RGB) (p : MontagePager)
    (smp' : SimpleMatrixPlotter) : Except MontagePager MontagePager :=
  match savePieces im p.smp.i smp'.nrowsProp smp'.ncolsProp bgRgb with
  | none => .error { p with smp := smp',
                            savedPages := p.savedPages ++ [p.smp.i] }
  | some _ =>
      .ok { p with smp := smp',
                   savedPages := p.savedPages ++ [p.smp.i],
                   manifestRows := p.manifestRows ++
                     csvRows smp'.ncolsProp p.itemid,
                   itemid := [] }

/-- `MontagePager.savefig` (lines 289-320), as `Except`: `.error s` means an
exception propagates out of the flush leaving the pager in state `s`.
`im` is the bitmap obtained by rasterizing the current figure and `bgRgb`
the figure's face color read before rasterization — both are products of the
external matplotlib figure, hence parameters.

Reads `subplot_cnt = smp.i` and the background color (`AttributeError`,
state unchanged, when the figure was destroyed by an earlier flush); returns
unchanged when fewer than one subplot was issued; otherwise rasterizes via
`SimpleMatrixPlotter.savefig` (destroying the figure) and persists the
montage file, then runs `_save_pieces` — `savePieces` on `im` with the
`nrows`/`ncols` properties of the trimmed plotter — which can raise
(`ZeroDivisionError` from `subplot_size`, or `TypeError` on a blank crop):
then the exception propagates with the montage already persisted, the
identifier list not yet cleared and no manifest rows written.  On success
`_save_csv` appends the manifest rows and clears the identifier list. -/
def savefig (im : PILImage) (bgRgb : RGB) (p : MontagePager) :
    Except MontagePager MontagePager :=
  if p.smp.figAlive then
    if p.smp.i < 1 then .ok p
    else
      match p.smp.savefig with
      | none => .error p
      | some smp' => savefigDecompose im bgRgb p smp'
  else .error p

/-- `MontagePager.pop` (lines 280-287): on overflow (`smp.i >= page_size`)
flush the current page — an exception there propagates with the flush's
partial state — then create a fresh `SimpleMatrixPlotter` from the same
kwargs and increment the montage index; finally record the identifier and
issue the next subplot (`self._itemid.append` runs before `self.smp.pop()`,
so an `IndexError` there leaves the identifier appended). -/
def pop (im : PILImage) (bgRgb : RGB) (subplotId : String) (p : MontagePager) :
    Except MontagePager MontagePager :=
  (if p.pageSize ≤ p.smp.i then
     (savefig im bgRgb p).bind (fun p' =>
       .ok { p' with smp := smpMk p.pageSize (resolveNcols p.pageSize),
                     i := p'.i + 1 })
   else .ok p).bind (fun q =>
    match q.smp.pop with
    | none => .error { q with itemid := q.itemid ++ [subplotId] }
    | some smp' => .ok { q with itemid := q.itemid ++ [subplotId],
                                smp := smp' })

/-- Run `n` successive `pop` calls with identifiers `ids 0, ids 1, …`; the
bitmap and face color of the page flushed at montage index `k` are `im k`
and `bg k` (rendering is external matplotlib work); a raised exception
aborts the run with the state at the raise. -/
def iterPops (im : Nat → PILImage) (bg : Nat → RGB) (ids : Nat → String)
    (p : MontagePager) : Nat → Except MontagePager MontagePager
  | 0 => .ok p
  | n + 1 =>
      (iterPops im bg ids p n).bind (fun q => pop (im q.i) (bg q.i) (ids n) q)

end MontagePager

/-! ## Definitions taken from the spec's words (for refinement comparison)

Each `spec…` definition below follows the specification text, to be compared
with the corresponding definition translated from the source. -/

/-- Modelled from the spec: `true_rows = ceil(n / cols)` (spec §4.3 step 1),
to compare with `trueNrows`. -/
def specTrueRows (n cols : Nat) : Nat := (n + cols - 1) / cols

/-- Modelled from the spec: fixed box with `row = i // cols, col = i % cols`
(spec §4.3 step 3), to compare with `fixed_bbox`. -/
def specFixedBbox (cell_h cell_w cols i : Nat) : Nat × Nat × Nat × Nat :=
  let row := i / cols
  let col := i % cols
  (col * cell_w, row * cell_h, col * cell_w + cell_w, row * cell_h + cell_h)

/-- Modelled from the spec: the tight box expanded by 4 px on each side and
clamped to the crop's own bounds `[0, cropW] × [0, cropH]` (spec §4.3
step 6), to compare with `pad`. -/
def specPad (left up right bottom cropW cropH : Int) :
    Int × Int × Int × Int :=
  (max (left - 4) 0, max (up - 4) 0,
   min (right + 4) cropW, min (bottom + 4) cropH)

/-- Modelled from the spec: `cols = clip(round(sqrt(capacity)), 5, 20)`
(spec §3), with round-half-to-even rounding of the real square root (a half
never occurs since `(k + 1/2)^2` is not an integer), to compare with
`resolveNcols`. -/
def specNcolsRound (capacity : Nat) : Nat :=
  let r := if isqrt capacity * (isqrt capacity + 1) < capacity
           then isqrt capacity + 1 else isqrt capacity
  min (max 5 r) 20

/-! ## Helper lemmas -/

/-- `getbbox` returns `None` on an image all of whose pixels are zero. -/
lemma getbbox_eq_none (im : PILImage)
    (h0 : ∀ x y, x < im.width → y < im.height → im.px x y = (0, 0, 0)) :
    getbbox im = none := by
  have hinner : ∀ y ∈ List.range im.height,
      (List.range im.width).filterMap (fun x =>
        if im.px x y ≠ (0, 0, 0) then some (x, y) else none) = [] := by
    intro y hy
    refine List.filterMap_eq_nil_iff.mpr ?_
    intro x hx
    simp [h0 x y (List.mem_range.mp hx) (List.mem_range.mp hy)]
  have hpts : (List.range im.height).flatMap (fun y =>
      (List.range im.width).filterMap (fun x =>
        if im.px x y ≠ (0, 0, 0) then some (x, y) else none)) = [] := by
    refine List.flatMap_eq_nil_iff.mpr ?_
    intro y hy
    exact hinner y hy
  simp only [getbbox, hpts]

/-- The figure of `smpMk` always has at least `figcount` axes
(`rows * cols ≥ capacity`, needed so that issuing `figcount` subplots never
runs out of axes). -/
lemma smpMk_le_axesLen (f c : Nat) (hc : 0 < c) : f ≤ (smpMk f c).axesLen := by
  show f ≤ (f / c + (if f % c > 0 then 1 else 0)) * c
  have hqr : c * (f / c) + f % c = f := Nat.div_add_mod f c
  have hlt : f % c < c := Nat.mod_lt _ hc
  by_cases h0 : f % c = 0
  · rw [h0, if_neg (by omega), Nat.add_zero, Nat.mul_comm]
    omega
  · rw [if_pos (by omega), Nat.add_mul, Nat.one_mul, Nat.mul_comm]
    omega

/-- The default column count is at least 5. -/
lemma five_le_resolveNcols (f : Nat) : 5 ≤ resolveNcols f :=
  le_min (le_max_left _ _) (by norm_num)

/-! ## Claim theorems -/

/-- C2: the decomposer does NOT compute `true_rows = ceil(n / cols)`.
The source divides by `smp.nrows` while testing the remainder against
`smp.ncols` (a slip for `ncols`, contradicted by the adjacent `% ncols`
and by `_save_csv`'s `divmod(i, ncols)`).  On the grid of `page_size = 30`
(`nrows = 6`, `ncols = 5`) with `n = 5` occupied slots the code computes
`true_rows = 5 // 6 + (5 % 5 != 0) = 0` where the claim requires
`ceil(5/5) = 1`, and the subsequent `im.height // true_nrows` raises
`ZeroDivisionError`. -/
theorem trueNrows_ne_ceil :
    trueNrows 6 5 5 = 0 ∧ subplot_size 600 600 6 5 5 = none ∧
    specTrueRows 5 5 = 1 ∧ trueNrows 6 5 5 ≠ specTrueRows 5 5 := by decide

/-- C3: the fixed crop box does NOT use `row = i // cols`.  The source
computes `row = i // smp.nrows` (line 370).  On the grid `nrows = 6`,
`ncols = 5` with cell size 100×100, slot `i = 5` gets the box
`(0, 0, 100, 100)` (row 0) while the claim's formula gives
`(0, 100, 100, 200)` (row 1) — which is also the `(row, col) = divmod(5, 5)
= (1, 0)` that `_save_csv` records in the manifest for that very slot, so
the code contradicts its own manifest. -/
theorem fixed_bbox_ne_spec :
    fixed_bbox 100 100 6 5 5 = (0, 0, 100, 100) ∧
    specFixedBbox 100 100 5 5 = (0, 100, 100, 200) ∧
    fixed_bbox 100 100 6 5 5 ≠ specFixedBbox 100 100 5 5 ∧
    csvRows 5 ["a", "b", "c", "d", "e", "f"] =
      [("a", 0, 0, 0), ("b", 1, 0, 1), ("c", 2, 0, 2), ("d", 3, 0, 3),
       ("e", 4, 0, 4), ("f", 5, 1, 0)] := by decide

/-- C4 counterexample: the tightened box is NOT the tight box expanded by
4 px and clamped to the crop's bounds, and it is NOT always inside
`[0, width] × [0, height]`.  For a 100×100 crop of a 1000×1000 page with
tight box `(2, 3, 98, 99)`, `pad` returns `(-2, -1, 102, 103)`: the left
and top are negative (`min(l-4, 0)` instead of `max(l-4, 0)`) and the right
and bottom are clamped to the page's dimensions (the closure variable `im`
in `pad` is the full page bitmap), exceeding the crop's edge, whereas the
claim's expand-and-clamp box would be `(0, 0, 100, 100)`. -/
theorem pad_escapes_bounds_cex :
    pad 2 3 98 99 1000 1000 = (-2, -1, 102, 103) ∧
    specPad 2 3 98 99 100 100 = (0, 0, 100, 100) ∧
    pad 2 3 98 99 1000 1000 ≠ specPad 2 3 98 99 100 100 ∧
    ¬ (0 ≤ (-2 : Int)) ∧ ¬ ((102 : Int) ≤ 100) := by decide

/-- C4 amended: for every tight box with non-negative left/top, the padded
box has `left = min(l-4, 0)` and `top = min(u-4, 0)` — never positive, in
`[-4, 0]`, zero exactly when the tight edge is at least 4 px in, and
negative (outside the crop) otherwise — while right/bottom are the tight
edges expanded by 4 and clamped to the full page bitmap's bounds (not the
crop's), so they never exceed the page's dimensions but may exceed the
crop's. -/
theorem pad_amended (l u r b W H : Int) (hl : 0 ≤ l) (hu : 0 ≤ u) :
    (pad l u r b W H).1 ≤ 0 ∧ -4 ≤ (pad l u r b W H).1 ∧
    (pad l u r b W H).2.1 ≤ 0 ∧ -4 ≤ (pad l u r b W H).2.1 ∧
    (pad l u r b W H).2.2.1 ≤ W ∧ (pad l u r b W H).2.2.2 ≤ H ∧
    (4 ≤ l → (pad l u r b W H).1 = 0) ∧
    (l < 4 → (pad l u r b W H).1 = l - 4) ∧
    (4 ≤ u → (pad l u r b W H).2.1 = 0) ∧
    (u < 4 → (pad l u r b W H).2.1 = u - 4) ∧
    (r + 4 ≤ W → (pad l u r b W H).2.2.1 = r + 4) ∧
    (b + 4 ≤ H → (pad l u r b W H).2.2.2 = b + 4) := by
  simp only [pad]
  refine ⟨?_, ?_, ?_, ?_, ?_, ?_, ?_, ?_, ?_, ?_, ?_, ?_⟩ <;> omega

/-- Witness for `pad_amended` at the concrete tight box `(2, 3, 98, 99)` in
a 1000×1000 page. -/
theorem pad_amended_witness :
    (0 ≤ (2 : Int)) ∧ (0 ≤ (3 : Int)) ∧
    ((pad 2 3 98 99 1000 1000).1 ≤ 0 ∧ -4 ≤ (pad 2 3 98 99 1000 1000).1 ∧
     (pad 2 3 98 99 1000 1000).2.1 ≤ 0 ∧ -4 ≤ (pad 2 3 98 99 1000 1000).2.1 ∧
     (pad 2 3 98 99 1000 1000).2.2.1 ≤ 1000 ∧
     (pad 2 3 98 99 1000 1000).2.2.2 ≤ 1000 ∧
     (4 ≤ (2 : Int) → (pad 2 3 98 99 1000 1000).1 = 0) ∧
     ((2 : Int) < 4 → (pad 2 3 98 99 1000 1000).1 = 2 - 4) ∧
     (4 ≤ (3 : Int) → (pad 2 3 98 99 1000 1000).2.1 = 0) ∧
     ((3 : Int) < 4 → (pad 2 3 98 99 1000 1000).2.1 = 3 - 4) ∧
     ((98 : Int) + 4 ≤ 1000 → (pad 2 3 98 99 1000 1000).2.2.1 = 98 + 4) ∧
     ((99 : Int) + 4 ≤ 1000 → (pad 2 3 98 99 1000 1000).2.2.2 = 99 + 4)) :=
  ⟨by decide, by decide, pad_amended 2 3 98 99 1000 1000 (by decide) (by decide)⟩

/-- C5 counterexample: on an effectively blank cell (every pixel equal to
the background), `tighten` does not fall back to the fixed box — the bbox
of the difference is `None`, the call `pad(*bbox)` raises `TypeError`
(there is no `EmptyCropWarning` anywhere in the code), and no crop is
produced: the result is `none`, not the unchanged fixed box
`(0, 0, 10, 10)`. -/
theorem tighten_blank_cex :
    tighten 1000 1000 (imageNew 10 10 (200, 200, 200)) (200, 200, 200) = none ∧
    tighten 1000 1000 (imageNew 10 10 (200, 200, 200)) (200, 200, 200) ≠
      some (0, 0, 10, 10) := by decide

/-- C5 amended: whenever the per-pixel background difference of a crop has
no non-zero pixels, `tighten` fails fatally (the `None` bounding box is
unpacked into `pad`, a `TypeError`): no recoverable warning, no fixed-box
fallback, no persisted crop, and the exception propagates out of the
flush. -/
theorem tighten_blank_raises (pageW pageH w h : Nat) (px : Nat → Nat → RGB)
    (bg : RGB) (hblank : ∀ x y, x < w → y < h → px x y = bg) :
    tighten pageW pageH ⟨w, h, px⟩ bg = none := by
  have hz : getbbox (difference ⟨w, h, px⟩
      (imageNew (PILImage.mk w h px).width (PILImage.mk w h px).height bg)) =
      none := by
    refine getbbox_eq_none _ ?_
    intro x y hx hy
    have hx' : x < w := hx
    have hy' : y < h := hy
    simp [difference, imageNew, hblank x y hx' hy', absDiff]
  unfold tighten
  rw [hz]
  rfl

/-- Witness for `tighten_blank_raises`: a concrete 3×2 crop uniformly
colored `(7, 7, 7)` on the same background. -/
theorem tighten_blank_raises_witness :
    (∀ x y, x < 3 → y < 2 → (fun _ _ => ((7 : Nat), (7 : Nat), (7 : Nat))) x y
      = ((7 : Nat), (7 : Nat), (7 : Nat))) ∧
    tighten 8 8 ⟨3, 2, fun _ _ => (7, 7, 7)⟩ (7, 7, 7) = none :=
  ⟨fun _ _ _ _ => rfl,
   tighten_blank_raises 8 8 3 2 (fun _ _ => (7, 7, 7)) (7, 7, 7)
     (fun _ _ _ _ => rfl)⟩

/-- C7: flushing a page with zero issued slots is a silent no-op — the
state is returned unchanged (no montage saved, no manifest rows appended,
no exception), because `savefig` returns before rasterizing when
`subplot_cnt < 1`.  The hypothesis that the figure is alive holds in every
reachable zero-slot state (a figure is only destroyed by a flush of a page
with at least one slot, and `smp.i` never returns to 0 on that same
instance). -/
theorem savefig_empty_noop (p : MontagePager) (im : PILImage) (bgRgb : RGB)
    (hAlive : p.smp.figAlive = true) (hZero : p.smp.i = 0) :
    MontagePager.savefig im bgRgb p = .ok p := by
  unfold MontagePager.savefig
  rw [hAlive, hZero]
  simp

/-- Witness for `savefig_empty_noop`: a freshly constructed pager with
capacity 100 flushes to itself, whatever the rendered bitmap. -/
theorem savefig_empty_noop_witness :
    (pagerInit 100).smp.figAlive = true ∧ (pagerInit 100).smp.i = 0 ∧
    MontagePager.savefig (imageNew 1 1 (0, 0, 0)) (255, 255, 255)
      (pagerInit 100) = .ok (pagerInit 100) :=
  ⟨rfl, rfl, savefig_empty_noop (pagerInit 100) (imageNew 1 1 (0, 0, 0))
    (255, 255, 255) rfl rfl⟩

/-- C8 counterexample: the default column count is NOT
`clip(round(sqrt(c)), 5, 20)`.  The source truncates
(`int(math.sqrt(figcount))`), so for capacity 33 (√33 ≈ 5.745) the code
yields `clip(5, 5, 20) = 5` while the claim's formula yields
`clip(6, 5, 20) = 6`. -/
theorem resolveNcols_round_cex :
    resolveNcols 33 = 5 ∧ specNcolsRound 33 = 6 ∧
    resolveNcols 33 ≠ specNcolsRound 33 := by decide

/-- C8 amended: the default column count is `clip(floor(sqrt(c)), 5, 20)`
(truncation, not rounding), hence always in `[5, 20]`; and for every
capacity `c > 0` and explicit `cols > 0` the grid has
`rows = ceil(c / cols)`, so `rows * cols ≥ c`. -/
theorem grid_shape_amended (c cols : Nat) (hc : 0 < c) (hcols : 0 < cols) :
    5 ≤ resolveNcols c ∧ resolveNcols c ≤ 20 ∧
    (smpMk c cols).nrows = (c + cols - 1) / cols ∧
    c ≤ (smpMk c cols).nrows * (smpMk c cols).ncols := by
  refine ⟨five_le_resolveNcols c, min_le_right _ _, ?_, ?_⟩
  · show c / cols + (if c % cols > 0 then 1 else 0) = (c + cols - 1) / cols
    have hqr : cols * (c / cols) + c % cols = c := Nat.div_add_mod c cols
    have hlt : c % cols < cols := Nat.mod_lt _ hcols
    by_cases h0 : c % cols = 0
    · have he : c + cols - 1 = cols * (c / cols) + (cols - 1) := by omega
      have hz : (cols - 1) / cols = 0 := Nat.div_eq_of_lt (by omega)
      rw [h0, if_neg (by omega), Nat.add_zero, he, Nat.mul_add_div hcols, hz]
      omega
    · have hsucc : cols * (c / cols + 1) = cols * (c / cols) + cols :=
        Nat.mul_succ cols (c / cols)
      have he : c + cols - 1 = cols * (c / cols + 1) + (c % cols - 1) := by
        omega
      have hz : (c % cols - 1) / cols = 0 := Nat.div_eq_of_lt (by omega)
      rw [if_pos (by omega), he, Nat.mul_add_div hcols, hz]
  · exact smpMk_le_axesLen c cols hcols

/-- Witness for `grid_shape_amended` at capacity 33 with explicit 7
columns: `rows = ceil(33/7) = 5` and `5 * 7 = 35 ≥ 33`. -/
theorem grid_shape_amended_witness :
    0 < 33 ∧ 0 < 7 ∧
    (5 ≤ resolveNcols 33 ∧ resolveNcols 33 ≤ 20 ∧
     (smpMk 33 7).nrows = (33 + 7 - 1) / 7 ∧
     33 ≤ (smpMk 33 7).nrows * (smpMk 33 7).ncols) :=
  ⟨by decide, by decide, grid_shape_amended 33 7 (by decide) (by decide)⟩

/-- C10: on any grid where the occupied count `n` satisfies `0 < n`,
`n % ncols = 0` and `n // nrows = 0` (e.g. `page_size = 30` gives the
`nrows = 6 > ncols = 5` grid, and a final page with `n = 5`), the
decomposer's `true_nrows` is 0, the division `im.height // true_nrows`
raises `ZeroDivisionError`, and `_save_pieces` persists no crop of the
page. -/
theorem subplot_size_zero_rows_crash (im : PILImage) (bg : RGB)
    (nrows ncols cnt : Nat) (h1 : 0 < cnt) (h2 : cnt % ncols = 0)
    (h3 : cnt / nrows = 0) :
    trueNrows nrows ncols cnt = 0 ∧
    subplot_size im.height im.width nrows ncols cnt = none ∧
    savePieces im cnt nrows ncols bg = none := by
  have ht : trueNrows nrows ncols cnt = 0 := by simp [trueNrows, h2, h3]
  refine ⟨ht, ?_, ?_⟩
  · simp [subplot_size, pydiv, ht]
  · simp [savePieces, subplot_size, pydiv, ht]

/-- Witness for `subplot_size_zero_rows_crash`: the `page_size = 30` pager
indeed builds the `ncols = 5`, `nrows = 6` grid, and flushing a page with
5 occupied slots of a 600×600 bitmap crashes with no crops persisted. -/
theorem subplot_size_zero_rows_crash_witness :
    (smpMk 30 (resolveNcols 30)).ncols = 5 ∧
    (smpMk 30 (resolveNcols 30)).nrows = 6 ∧
    0 < 5 ∧ 5 % 5 = 0 ∧ 5 / 6 = 0 ∧
    (trueNrows 6 5 5 = 0 ∧
     subplot_size (imageNew 600 600 (255, 255, 255)).height
       (imageNew 600 600 (255, 255, 255)).width 6 5 5 = none ∧
     savePieces (imageNew 600 600 (255, 255, 255)) 5 6 5 (255, 255, 255) =
       none) :=
  ⟨by decide, by decide, by decide, by decide, by decide,
   subplot_size_zero_rows_crash (imageNew 600 600 (255, 255, 255))
     (255, 255, 255) 6 5 5 (by decide) (by decide) (by decide)⟩


/-! ## Pager flush lemmas -/

lemma smpMk_i (f c : Nat) : (smpMk f c).i = 0 := rfl

lemma smpMk_figAlive (f c : Nat) : (smpMk f c).figAlive = true := rfl

lemma except_bind_ok {ε α β : Type} (a : α) (f : α → Except ε β) :
    (Except.ok a : Except ε α).bind f = f a := rfl

lemma except_bind_err {ε α β : Type} (e : ε) (f : α → Except ε β) :
    (Except.error e : Except ε α).bind f = Except.error e := rfl

/-- `SimpleMatrixPlotter.savefig` on a live figure: trim and destroy. -/
lemma smp_savefig_some (s : SimpleMatrixPlotter) (hA : s.figAlive = true) :
    s.savefig = some { nrows := s.nrows, ncols := s.ncols,
                       axesLen := min s.axesLen s.i, i := s.i,
                       figAlive := false } := by
  unfold SimpleMatrixPlotter.savefig SimpleMatrixPlotter.trim
  rw [hA, if_pos rfl]

/-- A flush with zero issued slots returns the state unchanged. -/
lemma savefig_zero (im : PILImage) (bgRgb : RGB) (p : MontagePager)
    (hA : p.smp.figAlive = true) (h0 : p.smp.i = 0) :
    MontagePager.savefig im bgRgb p = .ok p := by
  unfold MontagePager.savefig
  rw [hA, h0]
  simp

/-- A flush on a destroyed figure raises reading the face color, leaving the
state unchanged. -/
lemma savefig_dead (im : PILImage) (bgRgb : RGB) (p : MontagePager)
    (hA : p.smp.figAlive = false) :
    MontagePager.savefig im bgRgb p = .error p := by
  unfold MontagePager.savefig
  rw [hA]
  rfl

/-- A live flush with at least one slot whose decomposition succeeds:
montage persisted, manifest appended, identifiers cleared, figure dead. -/
lemma savefig_ok_of_dec (im : PILImage) (bgRgb : RGB) (p : MontagePager)
    (crops : List (Int × Int × Int × Int))
    (hA : p.smp.figAlive = true) (h1 : 1 ≤ p.smp.i)
    (hdec : savePieces im p.smp.i
      (SimpleMatrixPlotter.nrowsProp
        { nrows := p.smp.nrows, ncols := p.smp.ncols,
          axesLen := min p.smp.axesLen p.smp.i, i := p.smp.i,
          figAlive := false })
      (SimpleMatrixPlotter.ncolsProp
        { nrows := p.smp.nrows, ncols := p.smp.ncols,
          axesLen := min p.smp.axesLen p.smp.i, i := p.smp.i,
          figAlive := false }) bgRgb = some crops) :
    MontagePager.savefig im bgRgb p = .ok
      { pageSize := p.pageSize,
        smp := { nrows := p.smp.nrows, ncols := p.smp.ncols,
                 axesLen := min p.smp.axesLen p.smp.i, i := p.smp.i,
                 figAlive := false },
        i := p.i, itemid := [],
        savedPages := p.savedPages ++ [p.smp.i],
        manifestRows := p.manifestRows ++ csvRows
          (SimpleMatrixPlotter.ncolsProp
            { nrows := p.smp.nrows, ncols := p.smp.ncols,
              axesLen := min p.smp.axesLen p.smp.i, i := p.smp.i,
              figAlive := false }) p.itemid } := by
  unfold MontagePager.savefig
  rw [hA, if_pos rfl, if_neg (by omega), smp_savefig_some p.smp hA]
  show MontagePager.savefigDecompose im bgRgb p
    { nrows := p.smp.nrows, ncols := p.smp.ncols,
      axesLen := min p.smp.axesLen p.smp.i, i := p.smp.i,
      figAlive := false } = _
  unfold MontagePager.savefigDecompose
  rw [hdec]

/-- A live flush with at least one slot whose decomposition raises: the
montage is already persisted, the figure dead, but the identifier list keeps
its contents and no manifest rows are appended. -/
lemma savefig_err_of_dec (im : PILImage) (bgRgb : RGB) (p : MontagePager)
    (hA : p.smp.figAlive = true) (h1 : 1 ≤ p.smp.i)
    (hdec : savePieces im p.smp.i
      (SimpleMatrixPlotter.nrowsProp
        { nrows := p.smp.nrows, ncols := p.smp.ncols,
          axesLen := min p.smp.axesLen p.smp.i, i := p.smp.i,
          figAlive := false })
      (SimpleMatrixPlotter.ncolsProp
        { nrows := p.smp.nrows, ncols := p.smp.ncols,
          axesLen := min p.smp.axesLen p.smp.i, i := p.smp.i,
          figAlive := false }) bgRgb = none) :
    MontagePager.savefig im bgRgb p = .error
      { pageSize := p.pageSize,
        smp := { nrows := p.smp.nrows, ncols := p.smp.ncols,
                 axesLen := min p.smp.axesLen p.smp.i, i := p.smp.i,
                 figAlive := false },
        i := p.i, itemid := p.itemid,
        savedPages := p.savedPages ++ [p.smp.i],
        manifestRows := p.manifestRows } := by
  unfold MontagePager.savefig
  rw [hA, if_pos rfl, if_neg (by omega), smp_savefig_some p.smp hA]
  show MontagePager.savefigDecompose im bgRgb p
    { nrows := p.smp.nrows, ncols := p.smp.ncols,
      axesLen := min p.smp.axesLen p.smp.i, i := p.smp.i,
      figAlive := false } = _
  unfold MontagePager.savefigDecompose
  rw [hdec]

/-- Inversion of a flush that returned normally: either the zero-slot no-op,
or the full persisting flush. -/
lemma savefig_ok_cases (im : PILImage) (bgRgb : RGB) (p p' : MontagePager)
    (h : MontagePager.savefig im bgRgb p = .ok p') :
    (p' = p ∧ p.smp.i = 0) ∨
    (1 ≤ p.smp.i ∧ p' =
      { pageSize := p.pageSize,
        smp := { nrows := p.smp.nrows, ncols := p.smp.ncols,
                 axesLen := min p.smp.axesLen p.smp.i, i := p.smp.i,
                 figAlive := false },
        i := p.i, itemid := [],
        savedPages := p.savedPages ++ [p.smp.i],
        manifestRows := p.manifestRows ++ csvRows
          (SimpleMatrixPlotter.ncolsProp
            { nrows := p.smp.nrows, ncols := p.smp.ncols,
              axesLen := min p.smp.axesLen p.smp.i, i := p.smp.i,
              figAlive := false }) p.itemid }) := by
  unfold MontagePager.savefig at h
  by_cases hA : p.smp.figAlive = true
  · rw [hA, if_pos rfl] at h
    by_cases h0 : p.smp.i < 1
    · rw [if_pos h0] at h
      exact Or.inl ⟨(Except.ok.inj h).symm, by omega⟩
    · rw [if_neg h0, smp_savefig_some p.smp hA] at h
      have h2 : MontagePager.savefigDecompose im bgRgb p
          { nrows := p.smp.nrows, ncols := p.smp.ncols,
            axesLen := min p.smp.axesLen p.smp.i, i := p.smp.i,
            figAlive := false } = .ok p' := h
      unfold MontagePager.savefigDecompose at h2
      split at h2
      · exact Except.noConfusion h2
      · exact Or.inr ⟨by omega, (Except.ok.inj h2).symm⟩
  · rw [if_neg hA] at h
    exact Except.noConfusion h

/-- Inversion of a flush that raised: the resulting state's figure is
destroyed (either it already was, or the flush destroyed it before the
decomposition died). -/
lemma savefig_error_dead (im : PILImage) (bgRgb : RGB) (p p'' : MontagePager)
    (h : MontagePager.savefig im bgRgb p = .error p'') :
    p''.smp.figAlive = false := by
  unfold MontagePager.savefig at h
  by_cases hA : p.smp.figAlive = true
  · rw [hA, if_pos rfl] at h
    by_cases h0 : p.smp.i < 1
    · rw [if_pos h0] at h
      exact Except.noConfusion h
    · rw [if_neg h0, smp_savefig_some p.smp hA] at h
      have h2 : MontagePager.savefigDecompose im bgRgb p
          { nrows := p.smp.nrows, ncols := p.smp.ncols,
            axesLen := min p.smp.axesLen p.smp.i, i := p.smp.i,
            figAlive := false } = .error p'' := h
      unfold MontagePager.savefigDecompose at h2
      split at h2
      · rw [← Except.error.inj h2]
      · exact Except.noConfusion h2
  · rw [if_neg hA] at h
    have hfa : p.smp.figAlive = false := by
      cases hb : p.smp.figAlive
      · rfl
      · exact absurd hb hA
    rw [← Except.error.inj h]
    exact hfa

/-- C6 counterexample: flush is NOT idempotent.  After one `pop` on a fresh
capacity-100 pager (drawing onto a 4×4 bitmap over a white face color, so
the decomposition succeeds), the first `savefig` persists the page and
destroys the figure, and the second raises `AttributeError` reading
`self.smp.fig.get_facecolor()` on the destroyed (`None`) figure — it is not
a silent no-op. -/
theorem savefig_twice_cex :
    (MontagePager.pop (imageNew 4 4 (0, 0, 0)) (255, 255, 255) "x"
        (pagerInit 100)).bind
      (MontagePager.savefig (imageNew 4 4 (0, 0, 0)) (255, 255, 255)) =
      .ok { pageSize := 100,
            smp := { nrows := 10, ncols := 10, axesLen := 1, i := 1,
                     figAlive := false },
            i := 0, itemid := [], savedPages := [1],
            manifestRows := [("x", 0, 0, 0)] } ∧
    MontagePager.savefig (imageNew 4 4 (0, 0, 0)) (255, 255, 255)
      { pageSize := 100,
        smp := { nrows := 10, ncols := 10, axesLen := 1, i := 1,
                 figAlive := false },
        i := 0, itemid := [], savedPages := [1],
        manifestRows := [("x", 0, 0, 0)] } =
      .error { pageSize := 100,
               smp := { nrows := 10, ncols := 10, axesLen := 1, i := 1,
                        figAlive := false },
               i := 0, itemid := [], savedPages := [1],
               manifestRows := [("x", 0, 0, 0)] } :=
  ⟨rfl, rfl⟩

/-- C6 amended: a double `flush()` with no intervening `pop` is a pair of
no-ops only when the page has zero issued slots.  On a live page with at
least one slot, a first flush that returns normally persisted the page and
destroyed the figure, so a second flush — whatever bitmap it would render —
raises (`AttributeError` on the `None` figure) with the state unchanged,
performing no second rasterization or persistence; and a first flush that
itself raised (in the decomposition) likewise leaves the figure destroyed,
so a second flush raises with the state unchanged. -/
theorem savefig_twice_amended (p : MontagePager) (im : PILImage) (bgRgb : RGB)
    (hA : p.smp.figAlive = true) :
    (p.smp.i = 0 →
      MontagePager.savefig im bgRgb p = .ok p ∧
      ∀ im2 bg2, MontagePager.savefig im2 bg2 p = .ok p) ∧
    (1 ≤ p.smp.i →
      (∀ p', MontagePager.savefig im bgRgb p = .ok p' →
        p'.savedPages = p.savedPages ++ [p.smp.i] ∧
        ∀ im2 bg2, MontagePager.savefig im2 bg2 p' = .error p') ∧
      (∀ p'', MontagePager.savefig im bgRgb p = .error p'' →
        ∀ im2 bg2, MontagePager.savefig im2 bg2 p'' = .error p'')) := by
  constructor
  · intro h0
    exact ⟨savefig_zero im bgRgb p hA h0,
           fun im2 bg2 => savefig_zero im2 bg2 p hA h0⟩
  · intro h1
    constructor
    · intro p' hok
      rcases savefig_ok_cases im bgRgb p p' hok with ⟨_, h0⟩ | ⟨_, hp'⟩
      · omega
      · subst hp'
        exact ⟨rfl, fun im2 bg2 => savefig_dead im2 bg2 _ rfl⟩
    · intro p'' herr im2 bg2
      exact savefig_dead im2 bg2 p'' (savefig_error_dead im bgRgb p p'' herr)

/-- Witness for `savefig_twice_amended` at a concrete live pager state with
one issued slot. -/
theorem savefig_twice_amended_witness :
    (({ pageSize := 100,
        smp := { nrows := 10, ncols := 10, axesLen := 100, i := 1,
                 figAlive := true },
        i := 0, itemid := ["x"], savedPages := [],
        manifestRows := [] } : MontagePager).smp.figAlive = true) ∧
    ((({ pageSize := 100,
         smp := { nrows := 10, ncols := 10, axesLen := 100, i := 1,
                  figAlive := true },
         i := 0, itemid := ["x"], savedPages := [],
         manifestRows := [] } : MontagePager).smp.i = 0 →
       MontagePager.savefig (imageNew 4 4 (0, 0, 0)) (255, 255, 255)
         { pageSize := 100,
           smp := { nrows := 10, ncols := 10, axesLen := 100, i := 1,
                    figAlive := true },
           i := 0, itemid := ["x"], savedPages := [], manifestRows := [] } =
         .ok { pageSize := 100,
               smp := { nrows := 10, ncols := 10, axesLen := 100, i := 1,
                        figAlive := true },
               i := 0, itemid := ["x"], savedPages := [],
               manifestRows := [] } ∧
       ∀ im2 bg2, MontagePager.savefig im2 bg2
         { pageSize := 100,
           smp := { nrows := 10, ncols := 10, axesLen := 100, i := 1,
                    figAlive := true },
           i := 0, itemid := ["x"], savedPages := [], manifestRows := [] } =
         .ok { pageSize := 100,
               smp := { nrows := 10, ncols := 10, axesLen := 100, i := 1,
                        figAlive := true },
               i := 0, itemid := ["x"], savedPages := [],
               manifestRows := [] }) ∧
     (1 ≤ ({ pageSize := 100,
             smp := { nrows := 10, ncols := 10, axesLen := 100, i := 1,
                      figAlive := true },
             i := 0, itemid := ["x"], savedPages := [],
             manifestRows := [] } : MontagePager).smp.i →
       (∀ p', MontagePager.savefig (imageNew 4 4 (0, 0, 0)) (255, 255, 255)
           { pageSize := 100,
             smp := { nrows := 10, ncols := 10, axesLen := 100, i := 1,
                      figAlive := true },
             i := 0, itemid := ["x"], savedPages := [], manifestRows := [] } =
           .ok p' →
         p'.savedPages = [] ++ [1] ∧
         ∀ im2 bg2, MontagePager.savefig im2 bg2 p' = .error p') ∧
       (∀ p'', MontagePager.savefig (imageNew 4 4 (0, 0, 0)) (255, 255, 255)
           { pageSize := 100,
             smp := { nrows := 10, ncols := 10, axesLen := 100, i := 1,
                      figAlive := true },
             i := 0, itemid := ["x"], savedPages := [], manifestRows := [] } =
           .error p'' →
         ∀ im2 bg2, MontagePager.savefig im2 bg2 p'' = .error p''))) :=
  ⟨rfl, savefig_twice_amended _ (imageNew 4 4 (0, 0, 0)) (255, 255, 255) rfl⟩

/-- C9 counterexample: the invariant `len(identifiers) == next_free_index`
does NOT hold immediately after a flush.  After one `pop` and one (normally
returning) `savefig` on a fresh capacity-100 pager, `_itemid` was cleared
(length 0) while the destroyed page's `smp._i` is still 1. -/
theorem identifiers_invariant_cex :
    (MontagePager.pop (imageNew 4 4 (0, 0, 0)) (255, 255, 255) "a"
        (pagerInit 100)).bind
      (MontagePager.savefig (imageNew 4 4 (0, 0, 0)) (255, 255, 255)) =
      .ok { pageSize := 100,
            smp := { nrows := 10, ncols := 10, axesLen := 1, i := 1,
                     figAlive := false },
            i := 0, itemid := [], savedPages := [1],
            manifestRows := [("a", 0, 0, 0)] } ∧
    ([] : List String).length ≠
      ({ nrows := 10, ncols := 10, axesLen := 1, i := 1,
         figAlive := false } : SimpleMatrixPlotter).i :=
  ⟨rfl, by decide⟩

/-- C9 amended: `len(identifiers) = next_free_index` holds initially and is
preserved by every `pop` that returns (including an overflow rotation) and
by a zero-slot flush; a persisting flush that returns normally instead
clears the identifier list while the consumed page's `next_free_index`
keeps its value (≥ 1), so the equality is broken immediately after such a
flush, until the next page rotation. -/
theorem identifiers_invariant_amended (p : MontagePager) (im : PILImage)
    (bgRgb : RGB) (id : String) (hInv : p.itemid.length = p.smp.i) :
    (∀ P, (pagerInit P).itemid.length = (pagerInit P).smp.i) ∧
    (∀ p', MontagePager.pop im bgRgb id p = .ok p' →
      p'.itemid.length = p'.smp.i) ∧
    (p.smp.i = 0 → ∀ p', MontagePager.savefig im bgRgb p = .ok p' →
      p'.itemid.length = p'.smp.i) ∧
    (1 ≤ p.smp.i → ∀ p', MontagePager.savefig im bgRgb p = .ok p' →
      p'.itemid.length = 0 ∧ p'.smp.i = p.smp.i) := by
  refine ⟨fun P => rfl, ?_, ?_, ?_⟩
  · intro p' h
    unfold MontagePager.pop at h
    by_cases hof : p.pageSize ≤ p.smp.i
    · rw [if_pos hof] at h
      cases hsf : MontagePager.savefig im bgRgb p with
      | error s =>
          rw [hsf] at h
          simp only [except_bind_err] at h
          exact Except.noConfusion h
      | ok p1 =>
          rw [hsf] at h
          simp only [except_bind_ok] at h
          have hlen : p1.itemid.length = 0 := by
            rcases savefig_ok_cases im bgRgb p p1 hsf with ⟨hp1, h0⟩ |
              ⟨_, hp1⟩
            · rw [hp1, hInv, h0]
            · rw [hp1]
              rfl
          split at h
          · exact Except.noConfusion h
          · rename_i smp2 heq
            have heq' : (smpMk p.pageSize (resolveNcols p.pageSize)).pop
                = some smp2 := heq
            unfold SimpleMatrixPlotter.pop at heq'
            split at heq'
            · rw [← Except.ok.inj h, ← Option.some.inj heq']
              simp [hlen, smpMk_i]
            · exact Option.noConfusion heq'
    · rw [if_neg hof] at h
      simp only [except_bind_ok] at h
      split at h
      · exact Except.noConfusion h
      · rename_i smp2 heq
        have heq' : p.smp.pop = some smp2 := heq
        unfold SimpleMatrixPlotter.pop at heq'
        split at heq'
        · rw [← Except.ok.inj h, ← Option.some.inj heq']
          simp [hInv]
        · exact Option.noConfusion heq'
  · intro h0 p' h
    rcases savefig_ok_cases im bgRgb p p' h with ⟨hp', _⟩ | ⟨h1, _⟩
    · rw [hp']; exact hInv
    · omega
  · intro h1 p' h
    rcases savefig_ok_cases im bgRgb p p' h with ⟨_, h0⟩ | ⟨_, hp'⟩
    · omega
    · subst hp'
      exact ⟨rfl, rfl⟩

/-- Witness for `identifiers_invariant_amended` at a fresh capacity-100
pager (where the invariant holds with both sides 0). -/
theorem identifiers_invariant_amended_witness :
    ((pagerInit 100).itemid.length = (pagerInit 100).smp.i) ∧
    ((∀ P, (pagerInit P).itemid.length = (pagerInit P).smp.i) ∧
     (∀ p', MontagePager.pop (imageNew 4 4 (0, 0, 0)) (255, 255, 255) "a"
         (pagerInit 100) = .ok p' → p'.itemid.length = p'.smp.i) ∧
     ((pagerInit 100).smp.i = 0 → ∀ p',
       MontagePager.savefig (imageNew 4 4 (0, 0, 0)) (255, 255, 255)
         (pagerInit 100) = .ok p' → p'.itemid.length = p'.smp.i) ∧
     (1 ≤ (pagerInit 100).smp.i → ∀ p',
       MontagePager.savefig (imageNew 4 4 (0, 0, 0)) (255, 255, 255)
         (pagerInit 100) = .ok p' →
       p'.itemid.length = 0 ∧ p'.smp.i = (pagerInit 100).smp.i)) :=
  ⟨rfl, identifiers_invariant_amended (pagerInit 100)
    (imageNew 4 4 (0, 0, 0)) (255, 255, 255) "a" rfl⟩

/-! ## Pop step lemmas and the paging invariant -/

/-- A fresh plotter with at least one axes cell issues slot 0. -/
lemma smpMk_pop (f c : Nat) (hax : 0 < (smpMk f c).axesLen) :
    (smpMk f c).pop = some { smpMk f c with i := 1 } := by
  have h0 : (smpMk f c).i < (smpMk f c).axesLen := by
    rw [smpMk_i]
    exact hax
  unfold SimpleMatrixPlotter.pop
  rw [if_pos h0]
  rfl

/-- A `pop` below both the page capacity and the axes count simply records
the identifier and advances the subplot index. -/
lemma pop_no_overflow (im : PILImage) (bgRgb : RGB) (p : MontagePager)
    (id : String) (hlt : p.smp.i < p.pageSize)
    (hax : p.smp.i < p.smp.axesLen) :
    MontagePager.pop im bgRgb id p = .ok
      { p with itemid := p.itemid ++ [id],
               smp := { p.smp with i := p.smp.i + 1 } } := by
  unfold MontagePager.pop
  rw [if_neg (by omega)]
  simp only [except_bind_ok]
  unfold SimpleMatrixPlotter.pop
  rw [if_pos hax]

/-- A `pop` on a full page whose flush raised propagates the exception. -/
lemma pop_overflow_of_err (im : PILImage) (bgRgb : RGB) (p s : MontagePager)
    (id : String) (hge : p.pageSize ≤ p.smp.i)
    (hsf : MontagePager.savefig im bgRgb p = .error s) :
    MontagePager.pop im bgRgb id p = .error s := by
  unfold MontagePager.pop
  rw [if_pos hge, hsf]
  rfl

/-- A `pop` on a full page whose flush returned normally rotates to a fresh
plotter, increments the montage index and issues slot 0 of the new page. -/
lemma pop_overflow_of_ok (im : PILImage) (bgRgb : RGB) (p p' : MontagePager)
    (id : String) (hge : p.pageSize ≤ p.smp.i)
    (hsf : MontagePager.savefig im bgRgb p = .ok p')
    (hax : 0 < (smpMk p.pageSize (resolveNcols p.pageSize)).axesLen) :
    MontagePager.pop im bgRgb id p = .ok
      { pageSize := p'.pageSize,
        smp := { smpMk p.pageSize (resolveNcols p.pageSize) with i := 1 },
        i := p'.i + 1, itemid := p'.itemid ++ [id],
        savedPages := p'.savedPages, manifestRows := p'.manifestRows } := by
  unfold MontagePager.pop
  rw [if_pos hge, hsf]
  simp only [except_bind_ok]
  rw [smpMk_pop p.pageSize (resolveNcols p.pageSize) hax]

/-- State reached whenever `n ≥ 1` pops on a fresh pager of positive
capacity `P` return normally: writing `n = P*q + (r+1)` with `r + 1 ≤ P`,
exactly `q` pages — each with `P` occupied slots — have been persisted, the
montage index is `q`, and the current live page holds `r + 1` issued slots
and identifiers. -/
lemma iterPops_ok_state (P : Nat) (hP : 0 < P) (im : Nat → PILImage)
    (bg : Nat → RGB) (ids : Nat → String) :
    ∀ N st, 1 ≤ N →
      MontagePager.iterPops im bg ids (pagerInit P) N = .ok st →
      ∃ q r L S M, N = P * q + (r + 1) ∧ r + 1 ≤ P ∧
        (L : List String).length = r + 1 ∧
        (S : List Nat).length = q ∧ (∀ c ∈ S, c = P) ∧
        st = { pageSize := P,
               smp := { smpMk P (resolveNcols P) with i := r + 1 },
               i := q, itemid := L, savedPages := S,
               manifestRows := (M : List ManifestRow) } := by
  have h5 := five_le_resolveNcols P
  have hcap := smpMk_le_axesLen P (resolveNcols P) (by omega)
  intro N
  induction N with
  | zero => intro st h; omega
  | succ n ih =>
      intro st _ h
      rw [show MontagePager.iterPops im bg ids (pagerInit P) (n + 1) =
        (MontagePager.iterPops im bg ids (pagerInit P) n).bind
          (fun q => MontagePager.pop (im q.i) (bg q.i) (ids n) q) from rfl]
        at h
      cases hit : MontagePager.iterPops im bg ids (pagerInit P) n with
      | error s =>
          rw [hit] at h
          simp only [except_bind_err] at h
          exact Except.noConfusion h
      | ok qn =>
          rw [hit] at h
          simp only [except_bind_ok] at h
          by_cases hn : 1 ≤ n
          · obtain ⟨q, r, L, S, M, hN, hrP, hL, hSlen, hSmem, hqn⟩ :=
              ih qn hn hit
            subst hqn
            by_cases hover : r + 1 < P
            · rw [pop_no_overflow _ _ _ (ids n) (by exact hover)
                (by show r + 1 < (smpMk P (resolveNcols P)).axesLen
                    omega)] at h
              refine ⟨q, r + 1, L ++ [ids n], S, M, by omega, by omega,
                by simp [hL], hSlen, hSmem, ?_⟩
              rw [← Except.ok.inj h]
            · cases hsf : MontagePager.savefig (im q) (bg q)
                  { pageSize := P,
                    smp := { smpMk P (resolveNcols P) with i := r + 1 },
                    i := q, itemid := L, savedPages := S,
                    manifestRows := M } with
              | error s =>
                  rw [pop_overflow_of_err _ _ _ s (ids n)
                    (by show P ≤ r + 1; omega) hsf] at h
                  exact Except.noConfusion h
              | ok p1 =>
                  rcases savefig_ok_cases _ _ _ p1 hsf with ⟨_, h0⟩ |
                    ⟨_, hp1⟩
                  · exact absurd (show r + 1 = 0 from h0) (by omega)
                  · subst hp1
                    rw [pop_overflow_of_ok _ _ _ _ (ids n)
                      (by show P ≤ r + 1; omega) hsf
                      (by show 0 < (smpMk P (resolveNcols P)).axesLen
                          omega)] at h
                    refine ⟨q + 1, 0, [ids n], S ++ [r + 1],
                      M ++ csvRows (SimpleMatrixPlotter.ncolsProp
                        { nrows := (smpMk P (resolveNcols P)).nrows,
                          ncols := (smpMk P (resolveNcols P)).ncols,
                          axesLen := min (smpMk P (resolveNcols P)).axesLen
                            (r + 1),
                          i := r + 1, figAlive := false }) L,
                      by have hmul : P * (q + 1) = P * q + P := by ring
                         omega, by omega,
                      rfl, by simp [hSlen], ?_, ?_⟩
                    · intro c hc
                      rcases List.mem_append.mp hc with h' | h'
                      · exact hSmem c h'
                      · rw [List.mem_singleton.mp h']
                        omega
                    · rw [← Except.ok.inj h]
                      rfl
          · have hn0 : n = 0 := by omega
            subst hn0
            have hq : pagerInit P = qn := Except.ok.inj hit
            subst hq
            rw [pop_no_overflow _ _ _ (ids 0)
              (show (0 : Nat) < P by omega)
              (show (0 : Nat) < (smpMk P (resolveNcols P)).axesLen
                by omega)] at h
            refine ⟨0, 0, [ids 0], [], [], by omega, by omega, rfl, rfl,
              by intro c hc; exact absurd hc (List.not_mem_nil c), ?_⟩
            rw [← Except.ok.inj h]
            rfl

/-- C1: for every capacity `P > 0`, every run of `N` `pop` calls on a fresh
pager that returns normally ends in a state from which the final `savefig`
— whether it returns normally or raises inside the decomposition (the
montage file is persisted before `_save_pieces` runs) — leaves exactly
`ceil(N/P) = (N + P - 1) / P` persisted montage pages, each with at least
one occupied slot; a page-aligned `N` yields exactly `N / P` pages, and the
closing flush never emits a trailing empty page. -/
theorem pager_pages_ceil (P N : Nat) (im : Nat → PILImage) (bg : Nat → RGB)
    (ids : Nat → String) (hP : 0 < P) (st : MontagePager)
    (hrun : MontagePager.iterPops im bg ids (pagerInit P) N = .ok st) :
    ∃ st', (MontagePager.savefig (im st.i) (bg st.i) st = .ok st' ∨
            MontagePager.savefig (im st.i) (bg st.i) st = .error st') ∧
      st'.savedPages.length = (N + P - 1) / P ∧
      (∀ c ∈ st'.savedPages, 0 < c) ∧
      (N % P = 0 → st'.savedPages.length = N / P) := by
  by_cases hN : 1 ≤ N
  · obtain ⟨q, r, L, S, M, hN', hrP, hL, hSlen, hSmem, hst⟩ :=
      iterPops_ok_state P hP im bg ids N st hN hrun
    subst hst
    have hmul : P * (q + 1) = P * q + P := by ring
    have hlen : (S ++ [r + 1]).length = (N + P - 1) / P := by
      have he : N + P - 1 = P * (q + 1) + r := by omega
      rw [he, Nat.mul_add_div hP, Nat.div_eq_of_lt (show r < P by omega)]
      simp [hSlen]
    have hpos : ∀ c ∈ S ++ [r + 1], 0 < c := by
      intro c hc
      rcases List.mem_append.mp hc with h' | h'
      · have := hSmem c h'
        omega
      · have := List.mem_singleton.mp h'
        omega
    have hdiv : N % P = 0 → (S ++ [r + 1]).length = N / P := by
      intro hmod
      have hm : (P * q + (r + 1)) % P = 0 := by rw [← hN']; exact hmod
      have hm2 : (r + 1) % P = 0 := by rwa [Nat.mul_add_mod] at hm
      have hrp : r + 1 = P := by
        rcases Nat.lt_or_ge (r + 1) P with h' | h'
        · rw [Nat.mod_eq_of_lt h'] at hm2
          omega
        · omega
      have he : N = P * (q + 1) := by omega
      rw [he, Nat.mul_div_cancel_left _ hP]
      simp [hSlen]
    cases hdec : savePieces (im q) (r + 1)
        (SimpleMatrixPlotter.nrowsProp
          { nrows := (smpMk P (resolveNcols P)).nrows,
            ncols := (smpMk P (resolveNcols P)).ncols,
            axesLen := min (smpMk P (resolveNcols P)).axesLen (r + 1),
            i := r + 1, figAlive := false })
        (SimpleMatrixPlotter.ncolsProp
          { nrows := (smpMk P (resolveNcols P)).nrows,
            ncols := (smpMk P (resolveNcols P)).ncols,
            axesLen := min (smpMk P (resolveNcols P)).axesLen (r + 1),
            i := r + 1, figAlive := false })
        (bg q) with
    | none =>
        refine ⟨_, Or.inr (savefig_err_of_dec (im q) (bg q)
          { pageSize := P,
            smp := { smpMk P (resolveNcols P) with i := r + 1 },
            i := q, itemid := L, savedPages := S, manifestRows := M }
          rfl (show 1 ≤ r + 1 by omega) hdec), ?_, ?_, ?_⟩
        · exact hlen
        · exact hpos
        · exact hdiv
    | some crops =>
        refine ⟨_, Or.inl (savefig_ok_of_dec (im q) (bg q)
          { pageSize := P,
            smp := { smpMk P (resolveNcols P) with i := r + 1 },
            i := q, itemid := L, savedPages := S, manifestRows := M }
          crops rfl (show 1 ≤ r + 1 by omega) hdec), ?_, ?_, ?_⟩
        · exact hlen
        · exact hpos
        · exact hdiv
  · have hN0 : N = 0 := by omega
    subst hN0
    have hst : pagerInit P = st := Except.ok.inj hrun
    subst hst
    refine ⟨pagerInit P,
      Or.inl (savefig_zero (im (pagerInit P).i) (bg (pagerInit P).i)
        (pagerInit P) rfl rfl), ?_, ?_, ?_⟩
    · show (0 : Nat) = (0 + P - 1) / P
      rw [Nat.div_eq_of_lt (by omega)]
    · intro c hc
      exact absurd hc (List.not_mem_nil c)
    · intro _
      show (0 : Nat) = 0 / P
      rw [Nat.zero_div]

/-- Witness for `pager_pages_ceil`: capacity 3, 7 pops drawing onto a 4×4
black bitmap over a white face color (so every decomposition succeeds), then
the closing flush: `ceil(7/3) = 3` persisted montage pages. -/
theorem pager_pages_ceil_witness :
    0 < 3 ∧
    ∃ st, MontagePager.iterPops (fun _ => imageNew 4 4 (0, 0, 0))
        (fun _ => (255, 255, 255)) (fun _ => "x") (pagerInit 3) 7 =
        .ok st ∧
      ∃ st', (MontagePager.savefig (imageNew 4 4 (0, 0, 0)) (255, 255, 255)
                st = .ok st' ∨
              MontagePager.savefig (imageNew 4 4 (0, 0, 0)) (255, 255, 255)
                st = .error st') ∧
        st'.savedPages.length = (7 + 3 - 1) / 3 ∧
        (∀ c ∈ st'.savedPages, 0 < c) ∧
        (7 % 3 = 0 → st'.savedPages.length = 7 / 3) :=
  ⟨by decide, ⟨_, rfl, pager_pages_ceil 3 7 (fun _ => imageNew 4 4 (0, 0, 0))
    (fun _ => (255, 255, 255)) (fun _ => "x") (by decide) _ rfl⟩⟩
